import Mathlib

/-!
Shallow embedding of the SeaBIOS low-level ATA disk driver (`src/ata.c`).

Machine integers are modelled as `Nat` with explicit truncation (`% 2^w`,
`&&& 0xff`) at the points where the C code's types truncate.  Hardware
behaviour (status-register reads, wait outcomes) is supplied to each
function as an explicit oracle argument, so every definition is a pure,
executable function of the code's inputs plus the device's observable
responses.
-/

namespace Ata

/-! ### Register-interface constants

The numeric values below come from headers of the repository that are not
among the sources (`ata.h`, `disk.h`); the driver file only uses them by
name.  They are the standard ATA/BIOS values.
-/

/-- Modelled from the spec: status-register BUSY bit (`ATA_CB_STAT_BSY`,
from `ata.h`, which is not among the sources). Standard value 0x80. -/
def ATA_CB_STAT_BSY : Nat := 0x80

/-- Modelled from the spec: status-register READY bit (`ATA_CB_STAT_RDY`). -/
def ATA_CB_STAT_RDY : Nat := 0x40

/-- Modelled from the spec: status-register DEVICE-FAULT bit (`ATA_CB_STAT_DF`). -/
def ATA_CB_STAT_DF : Nat := 0x20

/-- Modelled from the spec: status-register DATA-REQUEST bit (`ATA_CB_STAT_DRQ`). -/
def ATA_CB_STAT_DRQ : Nat := 0x08

/-- Modelled from the spec: status-register ERROR bit (`ATA_CB_STAT_ERR`). -/
def ATA_CB_STAT_ERR : Nat := 0x01

/-- Modelled from the spec: device/head-register LBA-mode flag (`ATA_CB_DH_LBA`). -/
def ATA_CB_DH_LBA : Nat := 0x40

/-- Modelled from the spec: device-control-register fixed bit (`ATA_CB_DC_HD15`). -/
def ATA_CB_DC_HD15 : Nat := 0x08

/-- Modelled from the spec: device-control-register interrupt-disable bit
(`ATA_CB_DC_NIEN`). -/
def ATA_CB_DC_NIEN : Nat := 0x02

/-- Modelled from the spec: READ SECTORS opcode (`ATA_CMD_READ_SECTORS`). -/
def ATA_CMD_READ_SECTORS : Nat := 0x20

/-- Modelled from the spec: WRITE SECTORS opcode (`ATA_CMD_WRITE_SECTORS`). -/
def ATA_CMD_WRITE_SECTORS : Nat := 0x30

/-- Modelled from the spec: PACKET opcode (`ATA_CMD_PACKET`). -/
def ATA_CMD_PACKET : Nat := 0xA0

/-- Modelled from the spec: fixed ATA block size (`DISK_SECTOR_SIZE`, 512). -/
def DISK_SECTOR_SIZE : Nat := 512

/-- Modelled from the spec: CD-ROM sector size (`CDROM_SECTOR_SIZE`, 2048). -/
def CDROM_SECTOR_SIZE : Nat := 2048

/-- Modelled from the spec: result code Success (`DISK_RET_SUCCESS`). -/
def DISK_RET_SUCCESS : Int := 0x00

/-- Modelled from the spec: result code InvalidParam (`DISK_RET_EPARAM`). -/
def DISK_RET_EPARAM : Int := 0x01

/-- Modelled from the spec: result code WriteProtected (`DISK_RET_EWRITEPROTECT`). -/
def DISK_RET_EWRITEPROTECT : Int := 0x03

/-- Modelled from the spec: result code BadTrack (`DISK_RET_EBADTRACK`). -/
def DISK_RET_EBADTRACK : Int := 0x0c

/-- Modelled from the spec: result code NotReady (`DISK_RET_ENOTREADY`). -/
def DISK_RET_ENOTREADY : Int := 0xAA

/-- Truncation to one byte, as performed by assignment to a `u8` field. -/
def u8 (n : Nat) : Nat := n % 256

/-! ### Command encoder (`struct ata_pio_command`, `ata_cmd_data` lines 326-345) -/

/-- The transient low-level command descriptor, `struct ata_pio_command`. -/
structure AtaPioCommand where
  feature : Nat
  sector_count : Nat
  lba_low : Nat
  lba_mid : Nat
  lba_high : Nat
  device : Nat
  command : Nat
  sector_count2 : Nat
  lba_low2 : Nat
  lba_mid2 : Nat
  lba_high2 : Nat
deriving Repr, DecidableEq

/-- The command-encoding part of `ata_cmd_data` (ata.c lines 326-345).
`count` is the operation's block count (a `u16`), `lba` its starting
logical block address (a `u64`), `command` the opcode chosen by the
caller.  The C computes `lba + op->count` in `u64` arithmetic, hence the
explicit `% 2^64`. -/
def ata_cmd_data_encode (count lba command : Nat) : AtaPioCommand :=
  -- memset(&cmd, 0, sizeof(cmd)); cmd.command = command;
  -- if (op->count >= (1<<8) || lba + op->count >= (1<<28)) { ... }
  if count ≥ 2 ^ 8 ∨ (lba + count) % 2 ^ 64 ≥ 2 ^ 28 then
    let lba2 := lba &&& 0xffffff      -- lba &= 0xffffff;
    { feature := 0
      sector_count := u8 count
      lba_low := u8 lba2
      lba_mid := u8 (lba2 >>> 8)
      lba_high := u8 (lba2 >>> 16)
      device := ((lba2 >>> 24) &&& 0xf) ||| ATA_CB_DH_LBA
      command := u8 command ||| 0x04  -- cmd.command |= 0x04;
      sector_count2 := u8 (count >>> 8)
      lba_low2 := u8 (lba >>> 24)
      lba_mid2 := u8 (lba >>> 32)
      lba_high2 := u8 (lba >>> 40) }
  else
    { feature := 0
      sector_count := u8 count
      lba_low := u8 lba
      lba_mid := u8 (lba >>> 8)
      lba_high := u8 (lba >>> 16)
      device := ((lba >>> 24) &&& 0xf) ||| ATA_CB_DH_LBA
      command := u8 command
      sector_count2 := 0
      lba_low2 := 0
      lba_mid2 := 0
      lba_high2 := 0 }

/-! ### PIO transfer engine (`ata_transfer`, ata.c lines 250-310)

The device's observable behaviour is an oracle `waits : Nat → Option Nat`
giving the outcome of the `pause_await_not_bsy` call after block `i`
(0-indexed): `none` models the wait returning its negative timeout code
`-1`, `some s` models it returning status byte `s` (which the wait
guarantees has the BUSY bit clear).  The buffer is modelled by the number
of bytes the data-register bulk transfers have advanced it. -/

/-- Result of a PIO transfer: the C return value, the final value of the
operation's `count` field, and the total buffer advance in bytes. -/
structure XferResult where
  ret : Int
  count : Nat
  bufAdvance : Nat
deriving Repr, DecidableEq

/-- Mask applied to the status between blocks (ata.c line 291):
`status &= (ATA_CB_STAT_BSY | ATA_CB_STAT_DRQ | ATA_CB_STAT_ERR)`. -/
def interMask (st : Nat) : Nat :=
  st &&& (ATA_CB_STAT_BSY ||| ATA_CB_STAT_DRQ ||| ATA_CB_STAT_ERR)

/-- Mask applied to the status after the final block (ata.c lines 300-303):
all of BUSY, DEVICE-FAULT, DRQ, ERROR, with DEVICE-FAULT additionally
cleared for reads (`status &= ~ATA_CB_STAT_DF`, on a byte value). -/
def finalMask (iswrite : Bool) (st : Nat) : Nat :=
  let m := st &&& (ATA_CB_STAT_BSY ||| ATA_CB_STAT_DF |||
                   ATA_CB_STAT_DRQ ||| ATA_CB_STAT_ERR)
  if iswrite then m else m &&& (0xff ^^^ ATA_CB_STAT_DF)

/-- The `for (;;)` loop of `ata_transfer`.  The first `Nat` argument is the
local variable `count` (number of blocks not yet transferred, including the
current one), `idx` the 0-based index of the current block, `bufAdvance`
the bytes moved so far; `orig` is the entry value of `op->count`, which the
error paths subtract from (`op->count -= count`).  The `0` case cannot be
reached from an entry count ≥ 1 (in C a zero count would wrap the `int`
loop variable); it is given an arbitrary benign value. -/
def ata_transfer_loop (waits : Nat → Option Nat) (iswrite : Bool)
    (blocksize orig : Nat) : Nat → Nat → Nat → XferResult
  | 0, _, bufAdvance => ⟨0, orig, bufAdvance⟩
  | count + 1, idx, bufAdvance =>
    -- bulk port transfer of one block, then `buf_fl += blocksize;`
    let buf2 := bufAdvance + blocksize
    -- status = pause_await_not_bsy(iobase1, iobase2);
    match waits idx with
    | none =>
      -- if (status < 0) { op->count -= count; return status; }
      ⟨-1, orig - (count + 1), buf2⟩
    | some st =>
      -- count--; if (!count) break;
      if count = 0 then
        -- post-loop final status check (lines 300-309)
        if finalMask iswrite st = 0 then ⟨0, orig, buf2⟩
        else ⟨-7, orig, buf2⟩
      else
        -- inter-block check (lines 291-297)
        if interMask st = ATA_CB_STAT_DRQ then
          ata_transfer_loop waits iswrite blocksize orig count (idx + 1) buf2
        else ⟨-6, orig - count, buf2⟩

/-- `ata_transfer` (ata.c lines 250-310): transfer `count` blocks of
`blocksize` bytes, with device wait outcomes given by `waits`. -/
def ata_transfer (count : Nat) (iswrite : Bool) (blocksize : Nat)
    (waits : Nat → Option Nat) : XferResult :=
  ata_transfer_loop waits iswrite blocksize count count 0 0

/-! ### Status-wait primitive (`await_ide`, ata.c lines 31-45)

The status register is an oracle `statuses : Nat → Nat` giving the value
of the `i`-th `inb(base+ATA_CB_STAT)` read; `timeUp : Nat → Bool` gives
the value of `check_time(end)` during the `i`-th loop iteration (the
deadline `end` is computed once before the loop, so it is a fixed
function of the iteration).  The loop may run forever when neither the
condition nor the deadline ever triggers, so the embedding carries a
`fuel` bound and returns `none` when it is exhausted.  The result carries
the C return value together with the number of status-register reads and
the number of `yield()` calls performed, each counted at the exact
program point where it occurs. -/

/-- The `for (;;)` loop of `await_ide`.  `i` is the iteration index; the
accumulators `reads` and `yields` count the reads and yields performed so
far (both equal `i` on entry to an iteration). -/
def await_ide_go (mask flags : Nat) (statuses : Nat → Nat)
    (timeUp : Nat → Bool) : Nat → Nat → Nat → Nat → Option (Int × Nat × Nat)
  | 0, _, _, _ => none
  | fuel + 1, i, reads, yields =>
    -- u8 status = inb(base+ATA_CB_STAT);
    let status := statuses i
    -- if ((status & mask) == flags) return status;
    if status &&& mask = flags then some (Int.ofNat status, reads + 1, yields)
    -- if (check_time(end)) return -1;
    else if timeUp i then some (-1, reads + 1, yields)
    -- yield();
    else await_ide_go mask flags statuses timeUp fuel (i + 1) (reads + 1) (yields + 1)

/-- `await_ide` (ata.c lines 31-45), run for at most `fuel` iterations. -/
def await_ide (mask flags : Nat) (statuses : Nat → Nat)
    (timeUp : Nat → Bool) (fuel : Nat) : Option (Int × Nat × Nat) :=
  await_ide_go mask flags statuses timeUp fuel 0 0 0

/-! ### ATA read/write and ATAPI packet operations
(`ata_cmd_data` lines 318-359, `atapi_cmd_data` lines 389-443)

`send_cmd` touches only the command-block registers, never the
device-control register; its outcome (0, or one of the negative codes
-1, -4 or -5) is supplied as the oracle `sendRet`.  Each function is embedded
together with the chronological trace of its externally visible protocol
events, so that the interrupt-disable/enable discipline on the
device-control register is part of the model. -/

/-- Externally visible protocol events of one operation. -/
inductive AtaEvent where
  /-- `outb(v, iobase2 + ATA_CB_DC)` — a device-control register write. -/
  | dcWrite (v : Nat)
  /-- the `send_cmd` command submission -/
  | submit
  /-- the 12-byte ATAPI packet written to the data register -/
  | packetOut
  /-- the `ata_transfer` data phase -/
  | xfer
deriving Repr, DecidableEq

/-- Result of `ata_cmd_data`/`atapi_cmd_data`: C return value, final
`op->count`, event trace, and the encoded command descriptor. -/
structure CmdDataResult where
  ret : Int
  count : Nat
  events : List AtaEvent
  cmd : AtaPioCommand
deriving Repr

/-- `ata_cmd_data` (ata.c lines 318-359): encode the command, disable
channel interrupts, submit, transfer with the fixed ATA block size, and
re-enable interrupts on every exit path (`goto fail`).  The transfer's
result is consulted only when `send_cmd` succeeded (the `if` on
`sendRet`), mirroring the early `goto fail`. -/
def ata_cmd_data (count lba command : Nat) (iswrite : Bool)
    (sendRet : Int) (waits : Nat → Option Nat) : CmdDataResult :=
  let cmd := ata_cmd_data_encode count lba command
  let x := ata_transfer count iswrite DISK_SECTOR_SIZE waits
  { ret := if sendRet ≠ 0 then sendRet else x.ret
    count := if sendRet ≠ 0 then count else x.count
    events := [.dcWrite (ATA_CB_DC_HD15 ||| ATA_CB_DC_NIEN), .submit]
              ++ (if sendRet ≠ 0 then [] else [.xfer])
              ++ [.dcWrite ATA_CB_DC_HD15]
    cmd := cmd }

/-- `atapi_cmd_data` (ata.c lines 389-443): submit the PACKET command,
write the command packet, wait (`pktWait` is the outcome of the
`pause_await_not_bsy` after the packet, with the same encoding as the
transfer oracle), check ERR then DRQ, run the read transfer with the
caller's block size; interrupts are re-enabled on every exit path.  The
twin fields of the descriptor are left uninitialised in C; they are
modelled as 0, and are never consulted because opcode 0xA0 has bit 0x04
clear. -/
def atapi_cmd_data (count blocksize : Nat) (sendRet : Int)
    (pktWait : Option Nat) (waits : Nat → Option Nat) : CmdDataResult :=
  let cmd : AtaPioCommand :=
    { feature := 0, sector_count := 0, lba_low := 0
      lba_mid := u8 blocksize, lba_high := u8 (blocksize >>> 8)
      device := 0, command := ATA_CMD_PACKET
      sector_count2 := 0, lba_low2 := 0, lba_mid2 := 0, lba_high2 := 0 }
  let x := ata_transfer count false blocksize waits
  -- outcome of the phase after the command packet was written; reached
  -- only when send_cmd succeeded
  let ret2 : Int :=
    match pktWait with
    | none => -1       -- status = pause_await_not_bsy(...); status < 0
    | some status =>
      if status &&& ATA_CB_STAT_ERR ≠ 0 then -2
      else if status &&& ATA_CB_STAT_DRQ = 0 then -3
      else x.ret
  let count2 : Nat :=
    match pktWait with
    | none => count
    | some status =>
      if status &&& ATA_CB_STAT_ERR ≠ 0 then count
      else if status &&& ATA_CB_STAT_DRQ = 0 then count
      else x.count
  let mid : List AtaEvent :=
    match pktWait with
    | none => []
    | some status =>
      if status &&& ATA_CB_STAT_ERR ≠ 0 then []
      else if status &&& ATA_CB_STAT_DRQ = 0 then []
      else [.xfer]
  { ret := if sendRet ≠ 0 then sendRet else ret2
    count := if sendRet ≠ 0 then count else count2
    events := [.dcWrite (ATA_CB_DC_HD15 ||| ATA_CB_DC_NIEN), .submit]
              ++ (if sendRet ≠ 0 then [] else [.packetOut] ++ mid)
              ++ [.dcWrite ATA_CB_DC_HD15]
    cmd := cmd }

/-! ### Operation dispatchers
(`process_ata_misc_op` lines 146-166, `process_ata_op` lines 361-381,
`process_atapi_op` lines 462-479) -/

/-- The logical disk-operation kinds of the external contract
(`CMD_*` from `disk.h`, which is not among the sources).  Modelled from
the spec: `kind: Read|Write|Format|Verify|Seek|Reset|IsReady` plus
unrecognized kinds, here `other`. -/
inductive DiskCommand where
  | read | write | verify | format | seek | reset | isready
  | other (code : Nat)
deriving Repr, DecidableEq

/-- Result of a dispatcher: the public result code and the final
`op->count`. -/
structure MiscResult where
  ret : Int
  count : Nat
deriving Repr, DecidableEq

/-- `isready` (ata.c lines 133-144), as a function of the status byte
read from the controller. -/
def isready (status : Nat) : Int :=
  if status &&& (ATA_CB_STAT_BSY ||| ATA_CB_STAT_RDY) = ATA_CB_STAT_RDY
  then DISK_RET_SUCCESS else DISK_RET_ENOTREADY

/-- `process_ata_misc_op` (ata.c lines 146-166).  `status` is the status
byte consulted by the is-ready path; `ata_reset` performs only register
traffic and always falls through to success. -/
def process_ata_misc_op (cmdKind : DiskCommand) (count status : Nat) :
    MiscResult :=
  match cmdKind with
  | .reset => ⟨DISK_RET_SUCCESS, count⟩
  | .isready => ⟨isready status, count⟩
  | .format => ⟨DISK_RET_SUCCESS, count⟩
  | .verify => ⟨DISK_RET_SUCCESS, count⟩
  | .seek => ⟨DISK_RET_SUCCESS, count⟩
  | _ => ⟨DISK_RET_EPARAM, 0⟩   -- default: op->count = 0; return DISK_RET_EPARAM;

/-- `process_ata_op` (ata.c lines 361-381). -/
def process_ata_op (cmdKind : DiskCommand) (count lba status : Nat)
    (sendRet : Int) (waits : Nat → Option Nat) : MiscResult :=
  match cmdKind with
  | .read =>
    let r := ata_cmd_data count lba ATA_CMD_READ_SECTORS false sendRet waits
    ⟨if r.ret ≠ 0 then DISK_RET_EBADTRACK else DISK_RET_SUCCESS, r.count⟩
  | .write =>
    let r := ata_cmd_data count lba ATA_CMD_WRITE_SECTORS true sendRet waits
    ⟨if r.ret ≠ 0 then DISK_RET_EBADTRACK else DISK_RET_SUCCESS, r.count⟩
  | _ => process_ata_misc_op cmdKind count status

/-- `process_atapi_op` (ata.c lines 462-479); the read path is
`cdrom_read`, which invokes `atapi_cmd_data` with the CD-ROM sector
size. -/
def process_atapi_op (cmdKind : DiskCommand) (count status : Nat)
    (sendRet : Int) (pktWait : Option Nat) (waits : Nat → Option Nat) :
    MiscResult :=
  match cmdKind with
  | .read =>
    let r := atapi_cmd_data count CDROM_SECTOR_SIZE sendRet pktWait waits
    ⟨if r.ret ≠ 0 then DISK_RET_EBADTRACK else DISK_RET_SUCCESS, r.count⟩
  | .format => ⟨DISK_RET_EWRITEPROTECT, count⟩
  | .write => ⟨DISK_RET_EWRITEPROTECT, count⟩
  | _ => process_ata_misc_op cmdKind count status

/-! ### Drive identification
(`extract_version` lines 501-511, `extract_identify` lines 514-537,
`init_drive_atapi` lines 552-584, `init_drive_ata` lines 603-645)

The IDENTIFY response is an oracle `buffer : Nat → Nat` mapping a word
index to the 16-bit word stored there. -/

/-- The drive-type tag (`DTYPE_ATA` / `DTYPE_ATAPI`). -/
inductive DriveType where
  | ata | atapi
deriving Repr, DecidableEq

/-- The fields of `struct drive_s` that identification fills in (the
model string is not modelled). -/
structure Drive where
  type : DriveType
  removable : Bool
  cntl_info : Nat
  blksize : Nat
  sectors : Nat
  cylinders : Nat
  heads : Nat
  spt : Nat
  floppy_type : Bool
deriving Repr, DecidableEq

/-- The countdown loop of `extract_version` (ata.c lines 505-510):
`for (version=15; version>0; version--) if (ataversion & (1<<version)) break;`.
`extract_version_go w v` scans bits `v, v-1, ..., 1`. -/
def extract_version_go (ataversion : Nat) : Nat → Nat
  | 0 => 0
  | v + 1 => if ataversion &&& (1 <<< (v + 1)) ≠ 0 then v + 1
             else extract_version_go ataversion v

/-- `extract_version` (ata.c lines 501-511). -/
def extract_version (buffer : Nat → Nat) : Nat :=
  extract_version_go (buffer 80) 15

/-- `init_drive_atapi` (ata.c lines 552-584), given that the
IDENTIFY-PACKET exchange and the drive allocation succeeded.  Returns the
initialised drive descriptor together with whether `map_cd_drive` was
invoked (the optical-device map registration). -/
def init_drive_atapi (buffer : Nat → Nat) : Drive × Bool :=
  let iscd := ((buffer 0 >>> 8) &&& 0x1f) == 0x05
  ({ type := .atapi
     removable := (buffer 0 &&& 0x80) != 0       -- from extract_identify
     cntl_info := extract_version buffer
     blksize := CDROM_SECTOR_SIZE
     sectors := 2 ^ 64 - 1                       -- SET_GLOBAL(drive_g->sectors, (u64)-1);
     cylinders := 0, heads := 0, spt := 0
     floppy_type := iscd },
   iscd)

/-- `init_drive_ata` (ata.c lines 603-645), given that the IDENTIFY
exchange and the drive allocation succeeded.  The sector count is read
from words 100-103 (a little-endian `u64`) when word 83 bit 10 is set,
else from words 60-61 (a little-endian `u32`). -/
def init_drive_ata (buffer : Nat → Nat) : Drive :=
  { type := .ata
    removable := (buffer 0 &&& 0x80) != 0
    cntl_info := extract_version buffer
    blksize := DISK_SECTOR_SIZE
    sectors :=
      if buffer 83 &&& (1 <<< 10) ≠ 0 then
        buffer 100 + buffer 101 * 2 ^ 16 + buffer 102 * 2 ^ 32 +
          buffer 103 * 2 ^ 48
      else
        buffer 60 + buffer 61 * 2 ^ 16
    cylinders := buffer 1
    heads := buffer 3
    spt := buffer 6
    floppy_type := false }

/-! ### Arithmetic helper lemmas -/

lemma and_mask24_eq_mod (n : Nat) : n &&& 0xffffff = n % 2 ^ 24 := by
  have h := Nat.and_pow_two_sub_one_eq_mod n 24
  norm_num at h
  exact h

lemma or_four_and_four (a : Nat) : (a ||| 0x04) &&& 0x04 = 0x04 := by
  have h4 : (0x04 : Nat) = 2 ^ 2 := by norm_num
  rw [h4, Nat.and_two_pow]
  simp [Nat.testBit_or]
  exact Or.inr (by decide)

lemma mod256_and_four (a : Nat) : a % 256 &&& 0x04 = a &&& 0x04 := by
  have h4 : (0x04 : Nat) = 2 ^ 2 := by norm_num
  have h256 : (256 : Nat) = 2 ^ 8 := by norm_num
  rw [h4, h256, Nat.and_two_pow, Nat.and_two_pow, Nat.testBit_mod_two_pow]
  norm_num

/-! ### Claims about the command encoder (C1) -/

/-- C1 (counterexample): the claim reads the addressing-mode condition
`lba + count ≥ 2^28` over unbounded integers, but the C computes the sum
in `u64` arithmetic.  At `lba = 2^64 - 1`, `count = 1` the mathematical
sum is `2^64 ≥ 2^28`, yet the sum wraps to 0, so the encoder selects
28-bit mode: the 48-bit flag bit 0x04 stays clear and the twin fields
stay zero. -/
theorem ata_cmd_data_encode_claim_cex :
    2 ^ 64 - 1 + 1 ≥ 2 ^ 28 ∧
    1 < 2 ^ 8 ∧
    (ata_cmd_data_encode 1 (2 ^ 64 - 1) ATA_CMD_READ_SECTORS).command = 0x20 ∧
    (ata_cmd_data_encode 1 (2 ^ 64 - 1) ATA_CMD_READ_SECTORS).command &&& 0x04 = 0 ∧
    (ata_cmd_data_encode 1 (2 ^ 64 - 1) ATA_CMD_READ_SECTORS).sector_count2 = 0 := by
  refine ⟨by norm_num, by norm_num, ?_, ?_, ?_⟩ <;> decide

/-- C1 (amended): for a `u16` block count and `u64` LBA, 48-bit addressing
is selected iff `count ≥ 256` or the `u64` sum `(lba + count) mod 2^64`
is `≥ 2^28`; in that case the twin fields carry LBA bits 24-47 and the
high count byte, the primary LBA bytes carry the LBA masked to its low
24 bits, and bit 0x04 is set in the opcode; otherwise LBA bits 24-27 are
packed into the device byte alongside the LBA-mode flag.  The feature
byte is zero in both modes. -/
theorem ata_cmd_data_encode_mode_select (count lba command : Nat)
    (hcount : count < 2 ^ 16) (hlba : lba < 2 ^ 64) :
    (ata_cmd_data_encode count lba command).feature = 0 ∧
    (count ≥ 2 ^ 8 ∨ (lba + count) % 2 ^ 64 ≥ 2 ^ 28 →
      (ata_cmd_data_encode count lba command).command = u8 command ||| 0x04 ∧
      (ata_cmd_data_encode count lba command).command &&& 0x04 = 0x04 ∧
      (ata_cmd_data_encode count lba command).sector_count2 = count / 2 ^ 8 ∧
      (ata_cmd_data_encode count lba command).lba_low2 = lba / 2 ^ 24 % 2 ^ 8 ∧
      (ata_cmd_data_encode count lba command).lba_mid2 = lba / 2 ^ 32 % 2 ^ 8 ∧
      (ata_cmd_data_encode count lba command).lba_high2 = lba / 2 ^ 40 % 2 ^ 8 ∧
      (ata_cmd_data_encode count lba command).lba_low = lba % 2 ^ 8 ∧
      (ata_cmd_data_encode count lba command).lba_mid = lba / 2 ^ 8 % 2 ^ 8 ∧
      (ata_cmd_data_encode count lba command).lba_high = lba / 2 ^ 16 % 2 ^ 8 ∧
      (ata_cmd_data_encode count lba command).device = ATA_CB_DH_LBA) ∧
    (¬(count ≥ 2 ^ 8 ∨ (lba + count) % 2 ^ 64 ≥ 2 ^ 28) →
      (ata_cmd_data_encode count lba command).command = u8 command ∧
      (command &&& 0x04 = 0 →
        (ata_cmd_data_encode count lba command).command &&& 0x04 = 0) ∧
      (ata_cmd_data_encode count lba command).sector_count2 = 0 ∧
      (ata_cmd_data_encode count lba command).lba_low2 = 0 ∧
      (ata_cmd_data_encode count lba command).lba_mid2 = 0 ∧
      (ata_cmd_data_encode count lba command).lba_high2 = 0 ∧
      (ata_cmd_data_encode count lba command).lba_low = lba % 2 ^ 8 ∧
      (ata_cmd_data_encode count lba command).lba_mid = lba / 2 ^ 8 % 2 ^ 8 ∧
      (ata_cmd_data_encode count lba command).lba_high = lba / 2 ^ 16 % 2 ^ 8 ∧
      (ata_cmd_data_encode count lba command).device
        = ((lba / 2 ^ 24) &&& 0xf) ||| ATA_CB_DH_LBA) := by
  refine ⟨?_, ?_, ?_⟩
  · unfold ata_cmd_data_encode
    split <;> rfl
  · intro h
    unfold ata_cmd_data_encode
    rw [if_pos h]
    refine ⟨rfl, ?_, ?_, ?_, ?_, ?_, ?_, ?_, ?_, ?_⟩
    · exact or_four_and_four _
    · simp only [u8, Nat.shiftRight_eq_div_pow]
      omega
    · simp only [u8, Nat.shiftRight_eq_div_pow]
      norm_num
    · simp only [u8, Nat.shiftRight_eq_div_pow]
      norm_num
    · simp only [u8, Nat.shiftRight_eq_div_pow]
      norm_num
    · simp only [u8, and_mask24_eq_mod]
      omega
    · simp only [u8, and_mask24_eq_mod, Nat.shiftRight_eq_div_pow]
      omega
    · simp only [u8, and_mask24_eq_mod, Nat.shiftRight_eq_div_pow]
      omega
    · have h0 : (lba &&& 0xffffff) >>> 24 = 0 := by
        rw [and_mask24_eq_mod, Nat.shiftRight_eq_div_pow]
        omega
      simp only [h0]
      decide
  · intro h
    unfold ata_cmd_data_encode
    rw [if_neg h]
    refine ⟨rfl, ?_, rfl, rfl, rfl, rfl, ?_, ?_, ?_, ?_⟩
    · intro h4
      simpa only [u8, mod256_and_four] using h4
    · simp only [u8]
      omega
    · simp only [u8, Nat.shiftRight_eq_div_pow]
      norm_num
    · simp only [u8, Nat.shiftRight_eq_div_pow]
      norm_num
    · simp only [Nat.shiftRight_eq_div_pow]

/-- C1 (witness): the spec scenario — a read of 300 sectors at LBA 0
selects the 48-bit path purely because `count ≥ 256`. -/
theorem ata_cmd_data_encode_mode_select_witness :
    (ata_cmd_data_encode 300 0 ATA_CMD_READ_SECTORS).command = u8 ATA_CMD_READ_SECTORS ||| 0x04 ∧
    (ata_cmd_data_encode 300 0 ATA_CMD_READ_SECTORS).command &&& 0x04 = 0x04 ∧
    (ata_cmd_data_encode 300 0 ATA_CMD_READ_SECTORS).sector_count2 = 300 / 2 ^ 8 ∧
    (ata_cmd_data_encode 300 0 ATA_CMD_READ_SECTORS).lba_low2 = 0 / 2 ^ 24 % 2 ^ 8 ∧
    (ata_cmd_data_encode 300 0 ATA_CMD_READ_SECTORS).lba_mid2 = 0 / 2 ^ 32 % 2 ^ 8 ∧
    (ata_cmd_data_encode 300 0 ATA_CMD_READ_SECTORS).lba_high2 = 0 / 2 ^ 40 % 2 ^ 8 ∧
    (ata_cmd_data_encode 300 0 ATA_CMD_READ_SECTORS).lba_low = 0 % 2 ^ 8 ∧
    (ata_cmd_data_encode 300 0 ATA_CMD_READ_SECTORS).lba_mid = 0 / 2 ^ 8 % 2 ^ 8 ∧
    (ata_cmd_data_encode 300 0 ATA_CMD_READ_SECTORS).lba_high = 0 / 2 ^ 16 % 2 ^ 8 ∧
    (ata_cmd_data_encode 300 0 ATA_CMD_READ_SECTORS).device = ATA_CB_DH_LBA :=
  (ata_cmd_data_encode_mode_select 300 0 ATA_CMD_READ_SECTORS (by norm_num)
    (by norm_num)).2.1 (Or.inl (by norm_num))

/-! ### Claims about the PIO transfer engine (C2, C3, C4) -/

/-- Stepping lemma: as long as each wait succeeds with a status passing
the inter-block check, the transfer loop runs `j` further iterations,
advancing the buffer by `j` blocks. -/
lemma ata_transfer_loop_steps (waits : Nat → Option Nat) (iswrite : Bool)
    (blocksize orig : Nat) :
    ∀ j count idx buf, j ≤ count →
    (∀ i, i < j → ∃ s, waits (idx + i) = some s ∧ interMask s = ATA_CB_STAT_DRQ) →
    ata_transfer_loop waits iswrite blocksize orig (count + 1) idx buf
      = ata_transfer_loop waits iswrite blocksize orig (count + 1 - j) (idx + j)
          (buf + j * blocksize) := by
  intro j
  induction j with
  | zero => intro count idx buf _ _; simp
  | succ j ih =>
    intro count idx buf hj hw
    obtain ⟨c, rfl⟩ : ∃ c, count = c + 1 := ⟨count - 1, by omega⟩
    obtain ⟨s, hs, hm⟩ := hw 0 (by omega)
    rw [Nat.add_zero] at hs
    have step : ata_transfer_loop waits iswrite blocksize orig (c + 1 + 1) idx buf
        = ata_transfer_loop waits iswrite blocksize orig (c + 1) (idx + 1)
            (buf + blocksize) := by
      simp [ata_transfer_loop, hs, hm]
    rw [step]
    have ih2 := ih c (idx + 1) (buf + blocksize) (by omega) ?_
    · rw [ih2, show c + 1 - j = c + 1 + 1 - (j + 1) from by omega,
          show idx + 1 + j = idx + (j + 1) from by omega,
          show buf + blocksize + j * blocksize = buf + (j + 1) * blocksize from by ring]
    · intro i hi
      obtain ⟨t, ht, hmt⟩ := hw (i + 1) (by omega)
      exact ⟨t, by rwa [show idx + (i + 1) = idx + 1 + i from by omega] at ht, hmt⟩

/-- C2: a fully successful PIO transfer of `N ≥ 1` blocks of `B` bytes —
every wait yields a status passing the inter-block check and the final
status passes the post-loop check — returns 0, advances the buffer by
exactly `N * B` bytes, and leaves the operation's count field unchanged
at `N`, so the remaining count `N - N` is 0. -/
theorem ata_transfer_full_success (N B : Nat) (iswrite : Bool)
    (waits : Nat → Option Nat)
    (hN : 1 ≤ N)
    (hpre : ∀ i, i + 1 < N → ∃ s, waits i = some s ∧ interMask s = ATA_CB_STAT_DRQ)
    (hfin : ∃ s, waits (N - 1) = some s ∧ finalMask iswrite s = 0) :
    ata_transfer N iswrite B waits = ⟨0, N, N * B⟩ := by
  obtain ⟨n, rfl⟩ : ∃ n, N = n + 1 := ⟨N - 1, by omega⟩
  obtain ⟨s, hs, hm⟩ := hfin
  simp only [Nat.add_sub_cancel] at hs
  unfold ata_transfer
  rw [ata_transfer_loop_steps waits iswrite B (n + 1) n n 0 0 le_rfl ?_]
  · rw [show n + 1 - n = 1 from by omega, Nat.zero_add, Nat.zero_add]
    simp [ata_transfer_loop, hs, hm]
    ring
  · intro i hi
    rw [Nat.zero_add]
    exact hpre i (by omega)

/-- C2 (witness): a 2-block transfer where both waits succeed. -/
theorem ata_transfer_full_success_witness :
    ata_transfer 2 false 4 (fun i => if i = 0 then some 0x08 else some 0)
      = ⟨0, 2, 2 * 4⟩ :=
  ata_transfer_full_success 2 4 false _ (by norm_num)
    (by
      intro i hi
      have h0 : i = 0 := by omega
      subst h0
      exact ⟨0x08, rfl, by decide⟩)
    ⟨0, rfl, by decide⟩

/-- C3 (counterexample): a 4-block read in which block 2's inter-block
status check fails (status 0 instead of exactly DRQ) sets the count
field to 2 — the number of completed blocks — whereas the claim demands
a reported remaining count of `N - k + 1 = 3`; neither the field itself
nor `N` minus the field equals 3. -/
theorem ata_transfer_abort_claim_cex :
    ata_transfer 4 false 512 (fun i => if i = 0 then some 0x08 else some 0)
      = ⟨-6, 2, 2 * 512⟩ ∧
    4 - 2 + 1 = 3 ∧
    ((ata_transfer 4 false 512 (fun i => if i = 0 then some 0x08 else some 0)).count
      == 3) = false ∧
    ((4 - (ata_transfer 4 false 512
        (fun i => if i = 0 then some 0x08 else some 0)).count) == 3) = false := by
  refine ⟨by decide, by norm_num, by decide, by decide⟩

/-- C3 (amended): when block `k` (`1 ≤ k < N`) of a transfer fails, the
count field is set to the number of blocks already completed and
validated: `k - 1` with return code -1 (timeout) when the wait after
block `k` fails, and `k` with return code -6 (protocol violation) when
the inter-block status check after block `k` fails; equivalently the
remaining count `N` minus the field is `N - k + 1`, respectively
`N - k`.  In both cases `k` blocks' worth of bytes were moved. -/
theorem ata_transfer_abort_progress (N B k : Nat) (iswrite : Bool)
    (waits : Nat → Option Nat)
    (hk1 : 1 ≤ k) (hkN : k < N)
    (hpre : ∀ i, i + 1 < k → ∃ s, waits i = some s ∧ interMask s = ATA_CB_STAT_DRQ) :
    (waits (k - 1) = none →
      ata_transfer N iswrite B waits = ⟨-1, k - 1, k * B⟩) ∧
    (∀ s, waits (k - 1) = some s → interMask s ≠ ATA_CB_STAT_DRQ →
      ata_transfer N iswrite B waits = ⟨-6, k, k * B⟩) := by
  obtain ⟨n, rfl⟩ : ∃ n, N = n + 1 := ⟨N - 1, by omega⟩
  have hsteps := ata_transfer_loop_steps waits iswrite B (n + 1) (k - 1) n 0 0
    (by omega)
    (by
      intro i hi
      rw [Nat.zero_add]
      exact hpre i (by omega))
  rw [show n + 1 - (k - 1) = (n + 1 - k) + 1 from by omega, Nat.zero_add,
      Nat.zero_add] at hsteps
  have hbuf : (k - 1) * B + B = k * B := by
    calc (k - 1) * B + B = ((k - 1) + 1) * B := by ring
    _ = k * B := by rw [show k - 1 + 1 = k from by omega]
  constructor
  · intro hnone
    unfold ata_transfer
    rw [hsteps]
    simp [ata_transfer_loop, hnone]
    constructor
    · omega
    · exact hbuf
  · intro s hsome hmask
    unfold ata_transfer
    rw [hsteps]
    have hcz : n + 1 - k ≠ 0 := by omega
    simp [ata_transfer_loop, hsome, hcz, hmask]
    constructor
    · omega
    · exact hbuf

/-- C3 (witness): a 4-block transfer failing at block 2 — timeout case
(count field 1 = blocks completed) and protocol-violation case (count
field 2). -/
theorem ata_transfer_abort_progress_witness :
    ata_transfer 4 false 512 (fun i => if i = 0 then some 0x08 else none)
      = ⟨-1, 2 - 1, 2 * 512⟩ ∧
    ata_transfer 4 false 512 (fun i => if i = 0 then some 0x08 else some 0)
      = ⟨-6, 2, 2 * 512⟩ := by
  constructor
  · exact (ata_transfer_abort_progress 4 512 2 false _ (by norm_num) (by norm_num)
      (by
        intro i hi
        have h0 : i = 0 := by omega
        subst h0
        exact ⟨0x08, rfl, by decide⟩)).1 rfl
  · exact (ata_transfer_abort_progress 4 512 2 false _ (by norm_num) (by norm_num)
      (by
        intro i hi
        have h0 : i = 0 := by omega
        subst h0
        exact ⟨0x08, rfl, by decide⟩)).2 0 rfl (by decide)

/-- C4: when all `N` blocks are transferred and the final wait returns
status `s`, the transfer returns 0 if the final masked status is clear
and -7 otherwise, with the count field left at `N` (all blocks
attempted, remaining count `N - N = 0`) and the buffer fully advanced;
moreover for a read the final mask drops the device-fault bit, i.e. it
checks only busy, DRQ and error. -/
theorem ata_transfer_final_check (N B : Nat) (iswrite : Bool)
    (waits : Nat → Option Nat) (s : Nat)
    (hN : 1 ≤ N)
    (hpre : ∀ i, i + 1 < N → ∃ t, waits i = some t ∧ interMask t = ATA_CB_STAT_DRQ)
    (hfin : waits (N - 1) = some s) :
    ata_transfer N iswrite B waits
      = ⟨if finalMask iswrite s = 0 then 0 else -7, N, N * B⟩ ∧
    finalMask false s
      = s &&& (ATA_CB_STAT_BSY ||| ATA_CB_STAT_DRQ ||| ATA_CB_STAT_ERR) := by
  constructor
  · obtain ⟨n, rfl⟩ : ∃ n, N = n + 1 := ⟨N - 1, by omega⟩
    simp only [Nat.add_sub_cancel] at hfin
    unfold ata_transfer
    rw [ata_transfer_loop_steps waits iswrite B (n + 1) n n 0 0 le_rfl ?_]
    · rw [show n + 1 - n = 1 from by omega, Nat.zero_add, Nat.zero_add]
      by_cases hm : finalMask iswrite s = 0 <;>
        simp [ata_transfer_loop, hfin, hm] <;> ring
    · intro i hi
      rw [Nat.zero_add]
      exact hpre i (by omega)
  · unfold finalMask
    simp only [Bool.false_eq_true, if_false]
    rw [Nat.and_assoc]
    congr 1

/-- C4 (witness): a single-block read whose final status has busy clear
and error set fails with -7 and count field 1 (remaining 0). -/
theorem ata_transfer_final_check_witness :
    ata_transfer 1 false 16 (fun j => some 0x01) = ⟨-7, 1, 1 * 16⟩ ∧
    finalMask false 0x01
      = 0x01 &&& (ATA_CB_STAT_BSY ||| ATA_CB_STAT_DRQ ||| ATA_CB_STAT_ERR) :=
  ata_transfer_final_check 1 16 false (fun j => some 0x01) 0x01 (by norm_num)
    (by intro i hi; exact absurd hi (by omega)) rfl

/-! ### Claim about the status-wait primitive (C5) -/

/-- Characterization of the `await_ide` loop started at iteration `i`
with both counters equal to `i`. -/
lemma await_ide_go_char (mask flags : Nat) (statuses : Nat → Nat)
    (timeUp : Nat → Bool) :
    ∀ fuel i r reads yields,
      await_ide_go mask flags statuses timeUp fuel i i i = some (r, reads, yields) →
      i < reads ∧ yields = reads - 1 ∧
      (∀ j, i ≤ j → j + 1 < reads → statuses j &&& mask ≠ flags ∧ timeUp j = false) ∧
      ((statuses (reads - 1) &&& mask = flags ∧ r = Int.ofNat (statuses (reads - 1))) ∨
       (statuses (reads - 1) &&& mask ≠ flags ∧ timeUp (reads - 1) = true ∧ r = -1)) := by
  intro fuel
  induction fuel with
  | zero => intro i r reads yields h; simp [await_ide_go] at h
  | succ fuel ih =>
    intro i r reads yields h
    simp only [await_ide_go] at h
    by_cases hm : statuses i &&& mask = flags
    · rw [if_pos hm, Option.some_inj, Prod.mk.injEq, Prod.mk.injEq] at h
      obtain ⟨hr, hreads, hyields⟩ := h
      subst hr
      subst hreads
      subst hyields
      refine ⟨by omega, by omega, fun j hj1 hj2 => absurd hj2 (by omega), Or.inl ?_⟩
      simp only [Nat.add_sub_cancel]
      exact ⟨hm, trivial⟩
    · rw [if_neg hm] at h
      by_cases ht : timeUp i = true
      · rw [if_pos ht, Option.some_inj, Prod.mk.injEq, Prod.mk.injEq] at h
        obtain ⟨hr, hreads, hyields⟩ := h
        subst hr
        subst hreads
        subst hyields
        refine ⟨by omega, by omega, fun j hj1 hj2 => absurd hj2 (by omega), Or.inr ?_⟩
        simp only [Nat.add_sub_cancel]
        exact ⟨hm, ht, trivial⟩
      · rw [if_neg ht] at h
        obtain ⟨h1, h2, h3, h4⟩ := ih (i + 1) r reads yields h
        refine ⟨by omega, h2, ?_, h4⟩
        intro j hj1 hj2
        rcases Nat.eq_or_lt_of_le hj1 with hji | hji
        · subst hji
          exact ⟨hm, by simpa using ht⟩
        · exact h3 j (by omega) hj2

/-- C5: whenever the fuelled `await_ide` returns, it performed `reads ≥ 1`
status reads and exactly `reads - 1` yields (one between every two
consecutive reads); no read before the last one satisfied the condition
and no earlier iteration hit the deadline; the result is the status byte
of the last read if it satisfied `(status & mask) = flags`, and the
timeout failure -1 exactly when the deadline elapsed with the condition
still unobserved. -/
theorem await_ide_characterization (mask flags : Nat) (statuses : Nat → Nat)
    (timeUp : Nat → Bool) (fuel : Nat) (r : Int) (reads yields : Nat)
    (h : await_ide mask flags statuses timeUp fuel = some (r, reads, yields)) :
    1 ≤ reads ∧ yields = reads - 1 ∧
    (∀ j, j + 1 < reads → statuses j &&& mask ≠ flags ∧ timeUp j = false) ∧
    ((statuses (reads - 1) &&& mask = flags ∧ r = Int.ofNat (statuses (reads - 1))) ∨
     (statuses (reads - 1) &&& mask ≠ flags ∧ timeUp (reads - 1) = true ∧ r = -1)) := by
  obtain ⟨h1, h2, h3, h4⟩ :=
    await_ide_go_char mask flags statuses timeUp fuel 0 r reads yields h
  exact ⟨h1, h2, fun j hj => h3 j (Nat.zero_le j) hj, h4⟩

/-- C5 (witness): a wait for busy-clear that succeeds on the third read,
after two yields. -/
theorem await_ide_characterization_witness :
    1 ≤ 3 ∧ 2 = 3 - 1 ∧
    (∀ j, j + 1 < 3 →
      (fun i => if i = 2 then 0 else 0x80) j &&& 0x80 ≠ 0 ∧
      (fun _ : Nat => false) j = false) ∧
    (((fun i => if i = 2 then 0 else 0x80) (3 - 1) &&& 0x80 = 0 ∧
      (0 : Int) = Int.ofNat ((fun i => if i = 2 then 0 else 0x80) (3 - 1))) ∨
     ((fun i => if i = 2 then 0 else 0x80) (3 - 1) &&& 0x80 ≠ 0 ∧
      (fun _ : Nat => false) (3 - 1) = true ∧ (0 : Int) = -1)) :=
  await_ide_characterization 0x80 0 (fun i => if i = 2 then 0 else 0x80)
    (fun _ => false) 10 0 3 2 (by decide)

/-! ### Claim about the interrupt discipline (C6) -/

/-- C6: for every ATA read/write operation and every ATAPI packet
operation, and for every outcome of submission and transfer, the first
protocol event is a device-control write with the NIEN
(interrupt-disable) bit set, the submission comes after it, and the last
event is a device-control write whose value has NIEN clear — so the
channel is left with interrupts enabled on every exit path. -/
theorem ata_interrupt_discipline (count lba command blocksize : Nat)
    (iswrite : Bool) (sendRet : Int) (pktWait : Option Nat)
    (waits : Nat → Option Nat) :
    (ata_cmd_data count lba command iswrite sendRet waits).events.head?
      = some (.dcWrite (ATA_CB_DC_HD15 ||| ATA_CB_DC_NIEN)) ∧
    (ata_cmd_data count lba command iswrite sendRet waits).events[1]?
      = some .submit ∧
    (ata_cmd_data count lba command iswrite sendRet waits).events.getLast?
      = some (.dcWrite ATA_CB_DC_HD15) ∧
    (atapi_cmd_data count blocksize sendRet pktWait waits).events.head?
      = some (.dcWrite (ATA_CB_DC_HD15 ||| ATA_CB_DC_NIEN)) ∧
    (atapi_cmd_data count blocksize sendRet pktWait waits).events[1]?
      = some .submit ∧
    (atapi_cmd_data count blocksize sendRet pktWait waits).events.getLast?
      = some (.dcWrite ATA_CB_DC_HD15) ∧
    (ATA_CB_DC_HD15 ||| ATA_CB_DC_NIEN) &&& ATA_CB_DC_NIEN = ATA_CB_DC_NIEN ∧
    ATA_CB_DC_HD15 &&& ATA_CB_DC_NIEN = 0 := by
  refine ⟨?_, ?_, ?_, ?_, ?_, ?_, by decide, by decide⟩
  · simp [ata_cmd_data]
  · simp [ata_cmd_data]
  · simp only [ata_cmd_data]
    rw [List.getLast?_concat]
  · simp [atapi_cmd_data]
  · simp [atapi_cmd_data]
  · simp only [atapi_cmd_data]
    rw [List.getLast?_concat]

/-! ### Claim about result-code normalization (C7) -/

/-- C7: for read and write operations the dispatchers return the success
code exactly when the protocol engine returned 0, and the single
bad-sector/track code for every non-zero engine result; an ATAPI write
returns the write-protect code without invoking the engine.  The returned
codes are never negative: no raw internal code leaks to the caller. -/
theorem process_op_normalizes (count lba status : Nat) (sendRet : Int)
    (pktWait : Option Nat) (waits : Nat → Option Nat) :
    process_ata_op .read count lba status sendRet waits
      = ⟨if (ata_cmd_data count lba ATA_CMD_READ_SECTORS false sendRet waits).ret = 0
         then DISK_RET_SUCCESS else DISK_RET_EBADTRACK,
         (ata_cmd_data count lba ATA_CMD_READ_SECTORS false sendRet waits).count⟩ ∧
    process_ata_op .write count lba status sendRet waits
      = ⟨if (ata_cmd_data count lba ATA_CMD_WRITE_SECTORS true sendRet waits).ret = 0
         then DISK_RET_SUCCESS else DISK_RET_EBADTRACK,
         (ata_cmd_data count lba ATA_CMD_WRITE_SECTORS true sendRet waits).count⟩ ∧
    process_atapi_op .read count status sendRet pktWait waits
      = ⟨if (atapi_cmd_data count CDROM_SECTOR_SIZE sendRet pktWait waits).ret = 0
         then DISK_RET_SUCCESS else DISK_RET_EBADTRACK,
         (atapi_cmd_data count CDROM_SECTOR_SIZE sendRet pktWait waits).count⟩ ∧
    process_atapi_op .write count status sendRet pktWait waits
      = ⟨DISK_RET_EWRITEPROTECT, count⟩ ∧
    0 ≤ (process_ata_op .read count lba status sendRet waits).ret ∧
    0 ≤ (process_ata_op .write count lba status sendRet waits).ret ∧
    0 ≤ (process_atapi_op .read count status sendRet pktWait waits).ret ∧
    0 ≤ (process_atapi_op .write count status sendRet pktWait waits).ret := by
  refine ⟨?_, ?_, ?_, rfl, ?_, ?_, ?_, by norm_num [process_atapi_op, DISK_RET_EWRITEPROTECT]⟩
  · by_cases h : (ata_cmd_data count lba ATA_CMD_READ_SECTORS false sendRet waits).ret = 0 <;>
      simp [process_ata_op, h]
  · by_cases h : (ata_cmd_data count lba ATA_CMD_WRITE_SECTORS true sendRet waits).ret = 0 <;>
      simp [process_ata_op, h]
  · by_cases h : (atapi_cmd_data count CDROM_SECTOR_SIZE sendRet pktWait waits).ret = 0 <;>
      simp [process_atapi_op, h]
  · by_cases h : (ata_cmd_data count lba ATA_CMD_READ_SECTORS false sendRet waits).ret = 0 <;>
      simp [process_ata_op, h, DISK_RET_SUCCESS, DISK_RET_EBADTRACK]
  · by_cases h : (ata_cmd_data count lba ATA_CMD_WRITE_SECTORS true sendRet waits).ret = 0 <;>
      simp [process_ata_op, h, DISK_RET_SUCCESS, DISK_RET_EBADTRACK]
  · by_cases h : (atapi_cmd_data count CDROM_SECTOR_SIZE sendRet pktWait waits).ret = 0 <;>
      simp [process_atapi_op, h, DISK_RET_SUCCESS, DISK_RET_EBADTRACK]

/-! ### Claims about the no-op and unrecognized operations (C8) -/

/-- C8 (counterexample): a format operation dispatched to the ATAPI
dispatcher does not return the success code — it is routed with write to
the write-protect rejection (ata.c lines 470-472). -/
theorem process_atapi_format_claim_cex :
    process_atapi_op .format 5 0 0 none (fun j => none)
      = ⟨DISK_RET_EWRITEPROTECT, 5⟩ ∧
    (DISK_RET_EWRITEPROTECT == DISK_RET_SUCCESS) = false := by
  exact ⟨rfl, by decide⟩

/-- C8 (amended): format, verify and seek are legacy no-op successes on
the ATA dispatcher; verify and seek are no-op successes on the ATAPI
dispatcher, but format on the ATAPI dispatcher returns the
write-protected error; on both dispatchers an unrecognized operation
kind returns the parameter-error code and zeroes the block count. -/
theorem process_misc_ops (count lba status : Nat) (sendRet : Int)
    (pktWait : Option Nat) (waits : Nat → Option Nat) (c : Nat) :
    process_ata_op .format count lba status sendRet waits
      = ⟨DISK_RET_SUCCESS, count⟩ ∧
    process_ata_op .verify count lba status sendRet waits
      = ⟨DISK_RET_SUCCESS, count⟩ ∧
    process_ata_op .seek count lba status sendRet waits
      = ⟨DISK_RET_SUCCESS, count⟩ ∧
    process_atapi_op .verify count status sendRet pktWait waits
      = ⟨DISK_RET_SUCCESS, count⟩ ∧
    process_atapi_op .seek count status sendRet pktWait waits
      = ⟨DISK_RET_SUCCESS, count⟩ ∧
    process_atapi_op .format count status sendRet pktWait waits
      = ⟨DISK_RET_EWRITEPROTECT, count⟩ ∧
    process_ata_op (.other c) count lba status sendRet waits
      = ⟨DISK_RET_EPARAM, 0⟩ ∧
    process_atapi_op (.other c) count status sendRet pktWait waits
      = ⟨DISK_RET_EPARAM, 0⟩ :=
  ⟨rfl, rfl, rfl, rfl, rfl, rfl, rfl, rfl⟩

/-! ### Claims about drive identification (C9, C10) -/

/-- C9: a successful ATA IDENTIFY takes the drive's total sector count
from the 64-bit field at words 100-103 when word 83 bit 10 (48-bit LBA
capability) is set, and from the 32-bit field at words 60-61 when it is
clear. -/
theorem init_drive_ata_sector_source (buffer : Nat → Nat) :
    (buffer 83 &&& (1 <<< 10) ≠ 0 →
      (init_drive_ata buffer).sectors
        = buffer 100 + buffer 101 * 2 ^ 16 + buffer 102 * 2 ^ 32
            + buffer 103 * 2 ^ 48) ∧
    (buffer 83 &&& (1 <<< 10) = 0 →
      (init_drive_ata buffer).sectors = buffer 60 + buffer 61 * 2 ^ 16) := by
  have e : (1 <<< 10 : Nat) = 1024 := by decide
  constructor <;> intro h <;> rw [e] at h <;> simp [init_drive_ata, h]

/-- C9 (witness): one response with the capability bit set (sector count
from the 64-bit field) and one with it clear (from the 32-bit field). -/
theorem init_drive_ata_sector_source_witness :
    (init_drive_ata
        (fun i => if i = 83 then 1 <<< 10 else if i = 100 then 7 else 0)).sectors
      = 7 ∧
    (init_drive_ata (fun i => if i = 60 then 9 else 0)).sectors = 9 :=
  ⟨(init_drive_ata_sector_source
      (fun i => if i = 83 then 1 <<< 10 else if i = 100 then 7 else 0)).1 (by decide),
   (init_drive_ata_sector_source (fun i => if i = 60 then 9 else 0)).2 (by decide)⟩

/-- C10: every drive created by successful ATAPI identification has its
sector count set to the all-ones 64-bit value and its block size to the
CD-ROM sector size, whatever the identify response contains; the optical
flag is set exactly when bits 8-12 of response word 0 equal 0x05, and
the drive is registered in the optical-device map exactly when the flag
is set. -/
theorem init_drive_atapi_fields (buffer : Nat → Nat) :
    (init_drive_atapi buffer).1.sectors = 2 ^ 64 - 1 ∧
    (init_drive_atapi buffer).1.blksize = CDROM_SECTOR_SIZE ∧
    (init_drive_atapi buffer).1.floppy_type
      = (((buffer 0 >>> 8) &&& 0x1f) == 0x05) ∧
    (init_drive_atapi buffer).2 = (init_drive_atapi buffer).1.floppy_type :=
  ⟨rfl, rfl, rfl, rfl⟩

end Ata
